import Mathlib

/-!
Verification of the Coderr marketplace backend core workflows.

The Django models (`coderr_app/models.py`) are embedded as Lean structures,
and the serializer / view logic of the offer, order, profile and review
workflows (`coderr_app/api/serializers/*.py`, `coderr_app/api/views/*.py`)
as pure functions over an explicit relational `State`.  Machine-assigned
primary keys are passed in as explicit fresh-id arguments; `DecimalField`
prices are modelled as `Int` (the scale factor is irrelevant to every
property proved here).
-/

/-- `Profile` model: one-to-one extension of a user with a
`user_type ∈ {customer, business}` and contact fields.  The auth `User`
row's own mutable fields (first/last name, email) are inlined, since the
profile serializer reads and writes them through `instance.user`. -/
structure ProfileRec where
  userId : Nat
  user_type : String
  firstName : String
  lastName : String
  email : String
  file : Option String
  location : String
  tel : String
  description : String
  working_hours : String
deriving Repr, DecidableEq

/-- `Offer` model: header row owned by a business user. -/
structure Offer where
  id : Nat
  userId : Nat
  title : String
  description : String
  image : Option String
deriving Repr, DecidableEq

/-- `OfferDetail` model: one tier row of an offer. -/
structure OfferDetail where
  id : Nat
  offerId : Nat
  title : String
  revisions : Nat
  price : Int
  delivery_time : Nat
  features : List String
  offer_type : String
deriving Repr, DecidableEq

/-- `Order` model: snapshot copy of an `OfferDetail`'s fields linking a
customer and a business user, with a mutable `status`
(default `"in_progress"`). -/
structure Order where
  id : Nat
  customerUserId : Nat
  businessUserId : Nat
  title : String
  revisions : Nat
  delivery_time_in_days : Nat
  price : Int
  features : List String
  offer_type : String
  status : String
deriving Repr, DecidableEq

/-- `Review` model: rating + text from a reviewer about a business user. -/
structure Review where
  id : Nat
  businessUserId : Nat
  reviewerId : Nat
  rating : Nat
  description : String
deriving Repr, DecidableEq

/-- The relational store: one list per table. -/
structure State where
  profiles : List ProfileRec
  offers : List Offer
  details : List OfferDetail
  orders : List Order
  reviews : List Review
deriving Repr, DecidableEq

/-- `hasattr(user, "profile") and user.profile.user_type == "business"`. -/
def hasBusinessProfile (s : State) (uid : Nat) : Bool :=
  match s.profiles.find? (fun p => p.userId == uid) with
  | some p => p.user_type == "business"
  | none => false

/-! ## Offer update (`OfferUpdateSerializer`, `OfferDetailPatchSerializer`) -/

/-- One entry of the `details` list of a PATCH payload
(`OfferDetailPatchSerializer`): `id` optional, `offer_type` required,
every mutable field optional.  `Option` distinguishes an omitted key from
a present one. -/
structure DetailPatch where
  id : Option Nat
  offer_type : String
  title : Option String
  revisions : Option Nat
  delivery_time_in_days : Option Nat
  price : Option Int
  features : Option (List String)
deriving Repr, DecidableEq

/-- The offer PATCH payload (`OfferUpdateSerializer` fields
`title`, `image`, `description`, `details`).  `image` is doubly optional:
the key may be absent, and a present key may carry null. -/
structure OfferUpdatePayload where
  title : Option String
  description : Option String
  image : Option (Option String)
  details : Option (List DetailPatch)
deriving Repr, DecidableEq

/-- `OfferDetailPatchSerializer` field + object validation: `offer_type`
must be one of the three tier choices, and at least one of the five
mutable fields must be present ("No update fields provided for detail"). -/
def validatePatchEntry (d : DetailPatch) : Bool :=
  (d.offer_type == "basic" || d.offer_type == "standard" || d.offer_type == "premium")
    && (d.title.isSome || d.revisions.isSome || d.delivery_time_in_days.isSome
        || d.price.isSome || d.features.isSome)

/-- `is_valid()` on the whole update payload: every detail entry passes
`OfferDetailPatchSerializer`. -/
def validateUpdatePayload (p : OfferUpdatePayload) : Bool :=
  (p.details.getD []).all validatePatchEntry

/-- Errors raised while identifying the target `OfferDetail` of one
entry, inside `OfferUpdateSerializer.update`. -/
inductive IdentifyError where
  | notFound (i : Nat)
  | noneWithType (t : String)
  | multipleWithType (t : String)
deriving Repr, DecidableEq

/-- Detail identification of `OfferUpdateSerializer.update`: with an `id`,
`OfferDetail.objects.get(id=detail_id, offer=instance)` (not-found error if
no such row of this offer); without, filter this offer's details by
`offer_type` and fail on zero or more than one match, else take the single
match (`qs.first()`). -/
def identifyDetail (s : State) (offerId : Nat) (d : DetailPatch) :
    Except IdentifyError OfferDetail :=
  match d.id with
  | some i =>
    match s.details.find? (fun od => od.id == i && od.offerId == offerId) with
    | some od => .ok od
    | none => .error (.notFound i)
  | none =>
    match s.details.filter (fun od => od.offerId == offerId && od.offer_type == d.offer_type) with
    | [] => .error (.noneWithType d.offer_type)
    | [od] => .ok od
    | _ :: _ :: _ => .error (.multipleWithType d.offer_type)

/-- Apply the present fields of one entry to the identified detail
(the five `if "…" in d` blocks). -/
def applyPatch (od : OfferDetail) (d : DetailPatch) : OfferDetail :=
  { od with
    title := d.title.getD od.title
    revisions := d.revisions.getD od.revisions
    delivery_time := d.delivery_time_in_days.getD od.delivery_time
    price := d.price.getD od.price
    features := d.features.getD od.features }

/-- `detail_obj.save()`: write the row back by primary key. -/
def saveDetail (s : State) (od : OfferDetail) : State :=
  { s with details := s.details.map (fun x => if x.id == od.id then od else x) }

/-- `instance.save()`: write the offer row back by primary key. -/
def saveOffer (s : State) (o : Offer) : State :=
  { s with offers := s.offers.map (fun x => if x.id == o.id then o else x) }

/-- Apply the present scalar fields of the payload to the offer header
(the `title`/`description` loop and the `image` block). -/
def applyOfferScalars (o : Offer) (p : OfferUpdatePayload) : Offer :=
  { o with
    title := p.title.getD o.title
    description := p.description.getD o.description
    image := match p.image with | some v => v | none => o.image }

/-- The per-entry loop of `OfferUpdateSerializer.update`.  Each iteration
commits its `detail_obj.save()` to the store; a raised identification
error stops the loop with the store as already mutated (there is no
enclosing transaction in the code). -/
def updateDetailsLoop (s : State) (offerId : Nat) :
    List DetailPatch → State × Option IdentifyError
  | [] => (s, none)
  | d :: rest =>
    match identifyDetail s offerId d with
    | .error e => (s, some e)
    | .ok od => updateDetailsLoop (saveDetail s (applyPatch od d)) offerId rest

/-- `OfferUpdateSerializer.update`: save the offer scalars first, then run
the detail loop.  Returns the store as left behind together with the
raised error, if any. -/
def offerUpdate (s : State) (o : Offer) (p : OfferUpdatePayload) :
    State × Option IdentifyError :=
  let s1 := saveOffer s (applyOfferScalars o p)
  match p.details with
  | none => (s1, none)
  | some ds => updateDetailsLoop s1 o.id ds

/-- Outcome of the PATCH `/api/offers/{id}/` handler. -/
inductive UpdErr where
  | notFoundOffer
  | forbidden
  | invalidPayload
  | identify (e : IdentifyError)
deriving Repr, DecidableEq

/-- `OfferDetailView.patch`: object lookup, owner check, serializer
validation (`is_valid`, which mutates nothing), then
`OfferUpdateSerializer.update`. -/
def offerPatch (s : State) (callerId : Nat) (offerId : Nat)
    (p : OfferUpdatePayload) : State × Option UpdErr :=
  match s.offers.find? (fun o => o.id == offerId) with
  | none => (s, some .notFoundOffer)
  | some o =>
    if callerId != o.userId then (s, some .forbidden)
    else if ¬ validateUpdatePayload p then (s, some .invalidPayload)
    else
      match offerUpdate s o p with
      | (s', none) => (s', none)
      | (s', some e) => (s', some (.identify e))

/-! ## Offer creation (`OfferCreateSerializer`, `IsBusinessUser`) -/

/-- One entry of the `details` list of an offer-creation payload
(`OfferDetailCreateSerializer`; `delivery_time_in_days` maps onto the
model's `delivery_time`, `features` defaults to `[]` when omitted). -/
structure DetailCreate where
  title : String
  revisions : Nat
  delivery_time_in_days : Nat
  price : Int
  features : List String
  offer_type : String
deriving Repr, DecidableEq

/-- Offer-creation payload (`OfferCreateSerializer` writable fields). -/
structure OfferCreatePayload where
  title : String
  description : String
  image : Option String
  details : List DetailCreate
deriving Repr, DecidableEq

/-- The caller's profile situation, as seen by the permission classes. -/
inductive Role where
  | business
  | customer
  | noProfile
deriving Repr, DecidableEq

/-- `IsBusinessUser.has_permission` for POST (authentication granted):
`hasattr(u, "profile") and u.profile.user_type == "business"`. -/
def isBusinessUserPerm (r : Role) : Bool :=
  r == .business

/-- `OfferCreateSerializer.validate_details`: at least 3 entries. -/
def validate_details (value : List DetailCreate) : Bool :=
  ¬ value.length < 3

/-- Outcome of POST `/api/offers/`. -/
inductive CreateResp where
  | forbidden
  | validationError (msg : String)
  | created (s : State)
deriving Repr, DecidableEq

/-- `true` exactly on the `validationError` outcome. -/
def isValidationResp : CreateResp → Bool
  | .validationError _ => true
  | _ => false

/-- `OfferCreateSerializer.create`: create the header with the caller as
owner, then bulk-create the detail rows.  Fresh primary keys are supplied
as `newOfferId` and `newDetailIds` (zipped positionally). -/
def offerCreate (s : State) (callerId : Nat) (newOfferId : Nat)
    (newDetailIds : List Nat) (p : OfferCreatePayload) : State :=
  let offer : Offer :=
    { id := newOfferId, userId := callerId, title := p.title
      description := p.description, image := p.image }
  let rows := (p.details.zip newDetailIds).map (fun dk =>
    { id := dk.2, offerId := newOfferId, title := dk.1.title
      revisions := dk.1.revisions, price := dk.1.price
      delivery_time := dk.1.delivery_time_in_days
      features := dk.1.features, offer_type := dk.1.offer_type : OfferDetail })
  { s with offers := offer :: s.offers, details := s.details ++ rows }

/-- POST `/api/offers/` end to end: DRF runs the permission classes
(`IsAuthenticated`, `IsBusinessUser`) before serializer validation, so a
non-business caller is rejected with 403 before `validate_details` is
ever consulted. -/
def handleOfferCreate (s : State) (callerId : Nat) (r : Role)
    (newOfferId : Nat) (newDetailIds : List Nat)
    (p : OfferCreatePayload) : CreateResp :=
  if ¬ isBusinessUserPerm r then .forbidden
  else if ¬ validate_details p.details then
    .validationError "An offer must contain at least 3 details"
  else .created (offerCreate s callerId newOfferId newDetailIds p)

/-! ## Order creation (`OrderCreateSerializer`) -/

/-- `OrderCreateSerializer.create`: resolve the detail and its offer's
owner, then create an order copying the detail's fields, with
`status` left at the model default `"in_progress"`.
`validate_offer_detail_id` has already checked existence; the
`detail.offer` foreign key cannot dangle in the database, so a dangling
`offerId` is mapped to the same not-found error. -/
def orderCreate (s : State) (customerId : Nat) (newOrderId : Nat)
    (offer_detail_id : Nat) : Except String (Order × State) :=
  if ¬ s.details.any (fun od => od.id == offer_detail_id) then
    .error "OfferDetail not found"
  else
    match s.details.find? (fun od => od.id == offer_detail_id) with
    | none => .error "OfferDetail not found"
    | some detail =>
      match s.offers.find? (fun o => o.id == detail.offerId) with
      | none => .error "OfferDetail not found"
      | some offer =>
        let order : Order :=
          { id := newOrderId
            customerUserId := customerId
            businessUserId := offer.userId
            title := detail.title
            revisions := detail.revisions
            delivery_time_in_days := detail.delivery_time
            price := detail.price
            features := detail.features
            offer_type := detail.offer_type
            status := "in_progress" }
        .ok (order, { s with orders := order :: s.orders })

/-! ## Order status update (`OrderStatusUpdateSerializer`,
`OrderDetailView`) -/

/-- The keys of `Order.STATUS_CHOICES`. -/
def orderStatusValid (v : String) : Bool :=
  v == "pending" || v == "in_progress" || v == "completed" || v == "cancelled"

/-- The full serializer pass on a raw PATCH body (an association list of
string keys and values): field validation (`status` required, a model
choice field), then `validate` (no key besides `status`; value re-checked
against `STATUS_CHOICES`).  Returns the accepted status value. -/
def runStatusSerializer (payload : List (String × String)) :
    Except String String :=
  match payload.find? (fun kv => kv.1 == "status") with
  | none => .error "This field is required."
  | some kv =>
    if ¬ orderStatusValid kv.2 then .error "Invalid status"
    else if payload.any (fun kv => kv.1 != "status") then
      .error "Only 'status' may be updated"
    else .ok kv.2

/-- Outcome of PATCH `/api/orders/{id}/`. -/
inductive PatchResp where
  | notFound
  | forbidden
  | badRequest (msg : String)
  | ok (s : State) (o : Order)
deriving Repr, DecidableEq

/-- `order.save()` after the serializer set the new status. -/
def saveOrderStatus (s : State) (orderId : Nat) (v : String) : State :=
  { s with orders := s.orders.map (fun o =>
      if o.id == orderId then { o with status := v } else o) }

/-- `OrderDetailView.patch`: object lookup (over the all-orders queryset,
see `orderDetailQueryset`), the business-party check, then the status
serializer. -/
def orderStatusPatch (s : State) (callerId : Nat) (orderId : Nat)
    (payload : List (String × String)) : PatchResp :=
  match s.orders.find? (fun o => o.id == orderId) with
  | none => .notFound
  | some order =>
    if ¬ (hasBusinessProfile s callerId && callerId == order.businessUserId) then
      .forbidden
    else
      match runStatusSerializer payload with
      | .error m => .badRequest m
      | .ok v => .ok (saveOrderStatus s orderId v) { order with status := v }

/-! ## Review creation and update (`ReviewCreateSerializer`,
`ReviewUpdateSerializer`) -/

/-- Errors of the review-creation serializer, in the order the code
raises them (field validator first, then `validate`). -/
inductive ReviewError where
  | targetNotBusiness
  | invalidRating
  | selfReview
  | alreadyReviewed
deriving Repr, DecidableEq

/-- The `MinValueValidator(1)` / `MaxValueValidator(5)` pair on
`Review.rating`, which the `ModelSerializer` inherits as the rating
field's `min_value`/`max_value` bounds checked during `is_valid()`. -/
def ratingValid (rating : Nat) : Bool :=
  1 ≤ rating && rating ≤ 5

/-- `ReviewCreateSerializer` + `perform_create(reviewer=request.user)`:
field validation runs first in declaration order — `validate_business_user`
requires the target to carry a business-type profile, then the `rating`
field's inherited 1–5 bounds are checked — after which `validate` rejects
self-reviews and an existing review by this reviewer for this target;
`create` inserts one row with the caller as reviewer. -/
def reviewCreate (s : State) (reviewerId : Nat) (newReviewId : Nat)
    (businessUserId : Nat) (rating : Nat) (description : String) :
    Except ReviewError (Review × State) :=
  if ¬ hasBusinessProfile s businessUserId then .error .targetNotBusiness
  else if ¬ ratingValid rating then .error .invalidRating
  else if businessUserId == reviewerId then .error .selfReview
  else if s.reviews.any (fun r =>
      r.businessUserId == businessUserId && r.reviewerId == reviewerId) then
    .error .alreadyReviewed
  else
    let r : Review :=
      { id := newReviewId, businessUserId := businessUserId
        reviewerId := reviewerId, rating := rating, description := description }
    .ok (r, { s with reviews := r :: s.reviews })

/-- No two reviews share the `(business_user, reviewer)` pair — the
`uniq_review_per_business_per_reviewer` constraint of `Review.Meta`. -/
def reviewPairUnique (rs : List Review) : Prop :=
  rs.Pairwise (fun a b =>
    ¬ (a.businessUserId = b.businessUserId ∧ a.reviewerId = b.reviewerId))

/-! ## Offer listing annotations (`OfferListCreateView.get_queryset`,
`OfferDetailView.get_queryset`) -/

/-- The SQL `MIN` aggregate: fold over the group's rows, `NULL` (`none`)
for an empty group. -/
def aggMin {α β : Type} [Min α] (f : β → α) (rows : List β) : Option α :=
  rows.foldl
    (fun acc d =>
      match acc with
      | none => some (f d)
      | some m => some (min m (f d)))
    none

/-- `Min("details__price")`: aggregated over the join rows of this
offer's details. -/
def annotateMinPrice (s : State) (o : Offer) : Option Int :=
  aggMin OfferDetail.price (s.details.filter (fun d => d.offerId == o.id))

/-- `Min("details__delivery_time")`, aggregated the same way. -/
def annotateMinDeliveryTime (s : State) (o : Offer) : Option Nat :=
  aggMin OfferDetail.delivery_time (s.details.filter (fun d => d.offerId == o.id))

/-- An offer row as produced by the annotated querysets: the stored
columns plus the two read-time aggregates. -/
structure AnnotatedOffer where
  offer : Offer
  min_price : Option Int
  min_delivery_time : Option Nat
deriving Repr, DecidableEq

/-- The annotated queryset both offer views build: every offer, each
carrying `min_price` and `min_delivery_time` computed at read time. -/
def offerQueryset (s : State) : List AnnotatedOffer :=
  s.offers.map (fun o =>
    { offer := o
      min_price := annotateMinPrice s o
      min_delivery_time := annotateMinDeliveryTime s o })

/-! ## Offer listing filters (`OfferFilter`) -/

/-- Error raised by the query compiler when a filter names a column or
annotation the queryset does not define (Django `FieldError`). -/
inductive QueryError where
  | fieldError (name : String)
deriving Repr, DecidableEq

/-- Numeric columns resolvable on the annotated offer queryset: the
integer model columns of `Offer` plus the two annotations.  Any other
name fails to resolve. -/
def annotatedNumField (a : AnnotatedOffer) : String → Option (Option Int)
  | "id" => some (some (Int.ofNat a.offer.id))
  | "user_id" => some (some (Int.ofNat a.offer.userId))
  | "min_price" => some a.min_price
  | "min_delivery_time" => some (a.min_delivery_time.map Int.ofNat)
  | _ => none

/-- Whether a name resolves on the annotated queryset's schema (the
resolution is static: it depends on the schema, not on the rows). -/
def resolvableNumField (name : String) : Bool :=
  name == "id" || name == "user_id" || name == "min_price"
    || name == "min_delivery_time"

/-- `queryset.filter(name__gte=value)`: resolve the field name (raising
`FieldError` on an unknown name, whatever the rows), then keep rows whose
value is non-`NULL` and `≥ value`. -/
def filterFieldGte (qs : List AnnotatedOffer) (name : String) (value : Int) :
    Except QueryError (List AnnotatedOffer) :=
  if ¬ resolvableNumField name then .error (.fieldError name)
  else .ok (qs.filter (fun a =>
      match annotatedNumField a name with
      | some (some x) => value ≤ x
      | _ => false))

/-- `queryset.filter(name__lte=value)`, same resolution rule. -/
def filterFieldLte (qs : List AnnotatedOffer) (name : String) (value : Int) :
    Except QueryError (List AnnotatedOffer) :=
  if ¬ resolvableNumField name then .error (.fieldError name)
  else .ok (qs.filter (fun a =>
      match annotatedNumField a name with
      | some (some x) => x ≤ value
      | _ => false))

/-- `OfferFilter.filter_min_price`:
`queryset.filter(mind_price__gte=value)` — note the misspelled name. -/
def filter_min_price (qs : List AnnotatedOffer) (value : Int) :
    Except QueryError (List AnnotatedOffer) :=
  filterFieldGte qs "mind_price" value

/-- `OfferFilter.filter_max_delivery`:
`queryset.filter(min_delivery_time__lte=value)`. -/
def filter_max_delivery (qs : List AnnotatedOffer) (value : Int) :
    Except QueryError (List AnnotatedOffer) :=
  filterFieldLte qs "min_delivery_time" value

/-! ## Profile update (`ProfileSerializer`, `ProfileView`) -/

/-- A raw PATCH body for a profile, one `Option` per key the client may
send.  `type_key` and `user_type_key` stand for the JSON keys `"type"`
and `"user_type"`: `type` is declared `read_only` on the serializer and
`user_type` is not a declared field, so the claims quantify over payloads
that do carry them. -/
structure ProfilePatch where
  email : Option String
  first_name : Option String
  last_name : Option String
  file : Option (Option String)
  location : Option String
  tel : Option String
  description : Option String
  working_hours : Option String
  type_key : Option String
  user_type_key : Option String
deriving Repr, DecidableEq

/-- The outcome of `is_valid()`: DRF's `validated_data`.  Writable fields
keep their presence/value; the read-only `type` field and the undeclared
`user_type` key are dropped and never reach `update`. -/
structure ProfileValidatedData where
  email : Option String
  first_name : Option String
  last_name : Option String
  file : Option (Option String)
  location : Option String
  tel : Option String
  description : Option String
  working_hours : Option String
deriving Repr, DecidableEq

/-- DRF deserialization for `ProfileSerializer`: only declared writable
fields enter `validated_data`. -/
def toValidatedProfileData (p : ProfilePatch) : ProfileValidatedData :=
  { email := p.email, first_name := p.first_name, last_name := p.last_name
    file := p.file, location := p.location, tel := p.tel
    description := p.description, working_hours := p.working_hours }

/-- `x or ""`: a present but empty/null value is normalized to `""`. -/
def orBlank (x : String) : String :=
  if x == "" then "" else x

/-- `ProfileSerializer.update`: write the present user fields through
`instance.user`, then the present profile fields, then `file`. -/
def profileUpdate (inst : ProfileRec) (vd : ProfileValidatedData) :
    ProfileRec :=
  { inst with
    firstName := match vd.first_name with
      | some v => orBlank v
      | none => inst.firstName
    lastName := match vd.last_name with
      | some v => orBlank v
      | none => inst.lastName
    email := vd.email.getD inst.email
    location := match vd.location with
      | some v => orBlank v
      | none => inst.location
    tel := match vd.tel with
      | some v => orBlank v
      | none => inst.tel
    description := match vd.description with
      | some v => orBlank v
      | none => inst.description
    working_hours := match vd.working_hours with
      | some v => orBlank v
      | none => inst.working_hours
    file := match vd.file with
      | some v => v
      | none => inst.file }

/-! ## Order visibility (`OrderDetailView.get_queryset`,
`OrderListCreateView.get_queryset`) -/

/-- `Q(id__isnull=False)`: the primary key column is non-nullable, so the
predicate holds of every row. -/
def orderIdIsNotNull (_ : Order) : Bool :=
  true

/-- `OrderDetailView.get_queryset`:
`Order.objects.filter(Q(customer_user=u) | Q(business_user=u) | Q(id__isnull=False))`. -/
def orderDetailQueryset (s : State) (uid : Nat) : List Order :=
  s.orders.filter (fun o =>
    o.customerUserId == uid || o.businessUserId == uid || orderIdIsNotNull o)

/-- GET `/api/orders/{id}/`: `get_object` looks the id up inside
`get_queryset` (404 when absent). -/
def retrieveOrder (s : State) (uid : Nat) (orderId : Nat) : Option Order :=
  (orderDetailQueryset s uid).find? (fun o => o.id == orderId)

/-- `OrderListCreateView.get_queryset`: optional equality filters for
`business_user_id` / `customer_user_id` / `status`, then — for non-staff
callers whose explicit party filter does not name themselves — the
customer-or-business visibility restriction.  (Ordering by `-created_at`
is dropped: no claim concerns it.) -/
def orderListQueryset (s : State) (uid : Nat) (isStaff : Bool)
    (business_user_id customer_user_id : Option Nat)
    (status_param : Option String) : List Order :=
  let qs0 := s.orders
  let qs1 := match business_user_id with
    | some b => qs0.filter (fun o => o.businessUserId == b)
    | none => qs0
  let qs2 := match customer_user_id with
    | some c => qs1.filter (fun o => o.customerUserId == c)
    | none => qs1
  let qs3 := match status_param with
    | some st => qs2.filter (fun o => o.status == st)
    | none => qs2
  if ¬ isStaff then
    if business_user_id == some uid then qs3
    else if customer_user_id == some uid then qs3
    else qs3.filter (fun o =>
      o.customerUserId == uid || o.businessUserId == uid)
  else qs3

/-! ## Concrete stores and payloads used for evaluation -/

/-- Store with one offer (id 1, owner 1, title "old") holding a single
basic detail (id 10, price 5). -/
def exOfferState : State :=
  { profiles := []
    offers := [{ id := 1, userId := 1, title := "old", description := "", image := none }]
    details := [{ id := 10, offerId := 1, title := "basic tier", revisions := 1
                  price := 5, delivery_time := 3, features := [], offer_type := "basic" }]
    orders := []
    reviews := [] }

/-- Offer-PATCH payload renaming the offer and carrying two detail
entries: a valid tier-addressed price change, then an entry with an id
that belongs to no detail of the offer. -/
def exBadSecondEntry : OfferUpdatePayload :=
  { title := some "new", description := none, image := none
    details := some
      [{ id := none, offer_type := "basic", title := none, revisions := none
         delivery_time_in_days := none, price := some 7, features := none }
       , { id := some 99, offer_type := "basic", title := some "x", revisions := none
           delivery_time_in_days := none, price := none, features := none }] }

/-- Detail entry addressing the detail of `exOfferState` by id. -/
def exIdPatch : DetailPatch :=
  { id := some 10, offer_type := "basic", title := some "x", revisions := none
    delivery_time_in_days := none, price := none, features := none }

/-- Offer-creation payload with only two details. -/
def exShortPayload : OfferCreatePayload :=
  { title := "t", description := "", image := none
    details :=
      [{ title := "b", revisions := 1, delivery_time_in_days := 5
         price := 10, features := [], offer_type := "basic" }
       , { title := "s", revisions := 2, delivery_time_in_days := 3
           price := 20, features := [], offer_type := "standard" }] }

/-- Store with a business profile for user 2 and one of their orders
(id 1) placed by customer 4. -/
def exOrderState : State :=
  { profiles := [{ userId := 2, user_type := "business", firstName := ""
                   lastName := "", email := "", file := none, location := ""
                   tel := "", description := "", working_hours := "" }]
    offers := []
    details := []
    orders := [{ id := 1, customerUserId := 4, businessUserId := 2, title := "t"
                 revisions := 1, delivery_time_in_days := 3, price := 50
                 features := [], offer_type := "basic", status := "in_progress" }]
    reviews := [] }

/-- Store with a business profile for user 9 and no review yet. -/
def exReviewState : State :=
  { profiles := [{ userId := 9, user_type := "business", firstName := ""
                   lastName := "", email := "", file := none, location := ""
                   tel := "", description := "", working_hours := "" }]
    offers := [], details := [], orders := [], reviews := [] }

/-- Modelled from the spec's wording (§3, §4.3): a "snapshot" order —
content fields copied from the detail at creation, `business` set to the
supplied owner, status the stored default.  Compared below against what
`orderCreate` actually builds. -/
def snapshotOfDetail (newId customerId businessId : Nat) (d : OfferDetail) : Order :=
  { id := newId
    customerUserId := customerId
    businessUserId := businessId
    title := d.title
    revisions := d.revisions
    delivery_time_in_days := d.delivery_time
    price := d.price
    features := d.features
    offer_type := d.offer_type
    status := "in_progress" }

/-! ## Helper lemmas -/

theorem saveDetail_orders (s : State) (od : OfferDetail) :
    (saveDetail s od).orders = s.orders := rfl

theorem updateDetailsLoop_orders (oid : Nat) (ds : List DetailPatch) (s : State) :
    (updateDetailsLoop s oid ds).1.orders = s.orders := by
  induction ds generalizing s with
  | nil => rfl
  | cons d rest ih =>
    show (match identifyDetail s oid d with
      | .error e => (s, some e)
      | .ok od => updateDetailsLoop (saveDetail s (applyPatch od d)) oid rest).1.orders = s.orders
    cases identifyDetail s oid d with
    | error e => rfl
    | ok od => simpa [saveDetail_orders] using ih (saveDetail s (applyPatch od d))

theorem offerUpdate_orders (s : State) (o : Offer) (p : OfferUpdatePayload) :
    (offerUpdate s o p).1.orders = s.orders := by
  unfold offerUpdate
  cases p.details with
  | none => rfl
  | some ds => simpa using updateDetailsLoop_orders o.id ds (saveOffer s (applyOfferScalars o p))

theorem aggMin_cons {α β : Type} [Min α] (f : β → α) (b : β) (t : List β) :
    aggMin f (b :: t) = some ((t.map f).foldl min (f b)) := by
  suffices h : ∀ (t : List β) (a : α),
      List.foldl (fun acc d =>
        match acc with
        | none => some (f d)
        | some m => some (min m (f d))) (some a) t = some ((t.map f).foldl min a) by
    simpa [aggMin] using h t (f b)
  intro t
  induction t with
  | nil => intro a; rfl
  | cons c r ih => intro a; simpa using ih (min a (f c))

theorem foldl_min_le_start {α : Type} [LinearOrder α] (l : List α) (a : α) :
    l.foldl min a ≤ a := by
  induction l generalizing a with
  | nil => simp
  | cons b t ih => exact le_trans (ih (min a b)) (min_le_left a b)

theorem foldl_min_le_mem {α : Type} [LinearOrder α] (l : List α) (a : α) :
    ∀ x ∈ l, l.foldl min a ≤ x := by
  induction l generalizing a with
  | nil => simp
  | cons b t ih =>
    intro x hx
    rcases List.mem_cons.mp hx with h | h
    · subst h
      exact le_trans (foldl_min_le_start t (min a x)) (min_le_right a x)
    · exact ih (min a b) x h

theorem foldl_min_mem {α : Type} [LinearOrder α] (l : List α) (a : α) :
    l.foldl min a = a ∨ l.foldl min a ∈ l := by
  induction l generalizing a with
  | nil => simp
  | cons b t ih =>
    rcases ih (min a b) with h | h
    · rcases min_cases a b with ⟨hm, _⟩ | ⟨hm, _⟩
      · left; simpa [hm] using h
      · right; simp only [List.foldl_cons]; rw [h, hm]; exact List.mem_cons_self b t
    · right; exact List.mem_cons_of_mem b h

theorem aggMin_eq_none_iff {α β : Type} [LinearOrder α] (f : β → α) (l : List β) :
    aggMin f l = none ↔ l = [] := by
  cases l with
  | nil => simp [aggMin]
  | cons b t => simp [aggMin_cons]

theorem aggMin_eq_some_iff {α β : Type} [LinearOrder α] (f : β → α) (l : List β) (m : α) :
    aggMin f l = some m ↔ (m ∈ l.map f ∧ ∀ x ∈ l.map f, m ≤ x) := by
  cases l with
  | nil => simp [aggMin]
  | cons b t =>
    rw [aggMin_cons]
    constructor
    · intro h
      have hm : (t.map f).foldl min (f b) = m := by injection h
      constructor
      · rcases foldl_min_mem (t.map f) (f b) with h' | h'
        · rw [← hm, h']; exact List.mem_cons_self _ _
        · rw [← hm]; exact List.mem_cons_of_mem _ h'
      · intro x hx
        rcases List.mem_cons.mp hx with h' | h'
        · rw [← hm, h']; exact foldl_min_le_start _ _
        · rw [← hm]; exact foldl_min_le_mem _ _ x h'
    · rintro ⟨hmem, hle⟩
      have h₁ : (t.map f).foldl min (f b) ≤ m := by
        rcases List.mem_cons.mp hmem with h' | h'
        · rw [h']; exact foldl_min_le_start _ _
        · exact foldl_min_le_mem _ _ m h'
      have h₂ : m ≤ (t.map f).foldl min (f b) := by
        rcases foldl_min_mem (t.map f) (f b) with h' | h'
        · rw [h']; exact hle (f b) (List.mem_cons_self _ _)
        · exact hle _ (List.mem_cons_of_mem _ h')
      exact congrArg some (le_antisymm h₁ h₂)

/-! ## Claim theorems -/

/-- C1: the offer update is not atomic.  On the store `exOfferState` the
payload `exBadSecondEntry` fails identification on its second entry
(no detail with id 99 belongs to offer 1), yet the handler leaves the
offer's title renamed to "new" and the first detail's price rewritten to
7 — both were committed before the failing entry was reached, so the
update is not all-or-nothing. -/
theorem offerPatch_commits_partial_update_before_failure :
    (offerPatch exOfferState 1 1 exBadSecondEntry).2
        = some (UpdErr.identify (IdentifyError.notFound 99))
    ∧ ((offerPatch exOfferState 1 1 exBadSecondEntry).1.offers.find?
          (fun o => o.id == 1)).map Offer.title = some "new"
    ∧ ((offerPatch exOfferState 1 1 exBadSecondEntry).1.details.find?
          (fun d => d.id == 10)).map OfferDetail.price = some 7
    ∧ (exOfferState.offers.find? (fun o => o.id == 1)).map Offer.title = some "old"
    ∧ (exOfferState.details.find? (fun d => d.id == 10)).map OfferDetail.price
        = some 5 := by
  refine ⟨rfl, rfl, rfl, rfl, rfl⟩

/-- C8: the profile's `user_type` survives every update unchanged: the
serializer declares `type` read-only and has no `user_type` field, so no
payload — whatever keys it carries — makes `update` touch it. -/
theorem profileUpdate_user_type_immutable (inst : ProfileRec) (p : ProfilePatch) :
    (profileUpdate inst (toValidatedProfileData p)).user_type = inst.user_type := by
  rfl

/-- C9: evaluating the `min_price` filter fails with a field-resolution
error for every queryset and value, because it compares against the
undefined name `mind_price`; the `max_delivery_time` filter resolves the
real annotation `min_delivery_time` and returns the offers whose minimum
delivery time is at most the value. -/
theorem filter_min_price_raises_field_error (qs : List AnnotatedOffer) (v w : Int) :
    filter_min_price qs v = .error (.fieldError "mind_price")
    ∧ filter_max_delivery qs w = .ok (qs.filter (fun a =>
        match a.min_delivery_time with
        | some t => (t : Int) ≤ w
        | none => false)) := by
  constructor
  · rfl
  · show Except.ok _ = _
    congr 1
    apply List.filter_congr
    intro a _
    cases h : a.min_delivery_time <;> simp [annotatedNumField, h]

/-- C10: the single-order retrieval queryset contains every order for
every caller — `Q(id__isnull=False)` is true of each row — so GET by id
resolves the id over all orders regardless of who asks, while the listing
queryset of a non-staff caller without self-naming filters is restricted
to orders where the caller is the customer or the business party. -/
theorem orderDetail_retrieval_ignores_caller (s : State) (uid oid : Nat) :
    orderDetailQueryset s uid = s.orders
    ∧ retrieveOrder s uid oid = s.orders.find? (fun o => o.id == oid)
    ∧ (∀ u, orderListQueryset s u false none none none =
        s.orders.filter (fun o => o.customerUserId == u || o.businessUserId == u)) := by
  refine ⟨?_, ?_, ?_⟩
  · simp [orderDetailQueryset, orderIdIsNotNull]
  · simp [retrieveOrder, orderDetailQueryset, orderIdIsNotNull]
  · intro u
    simp [orderListQueryset]

/-- C2: a detail entry carrying an `id` succeeds exactly when a detail
with that id belongs to this offer and otherwise raises the not-found
error — never the multiple-details conflict — while an entry without an
`id` fails exactly when the offer has zero details of the entry's tier
or more than one. -/
theorem identifyDetail_id_or_tier (s : State) (oid : Nat) (d : DetailPatch) :
    (∀ i, d.id = some i →
      ((∃ od, identifyDetail s oid d = Except.ok od)
          ↔ ∃ od ∈ s.details, od.id = i ∧ od.offerId = oid)
      ∧ (∀ e, identifyDetail s oid d = Except.error e → e = IdentifyError.notFound i))
    ∧ (d.id = none →
      ((∃ e, identifyDetail s oid d = Except.error e)
          ↔ ((s.details.filter
                (fun od => od.offerId == oid && od.offer_type == d.offer_type)).length = 0
             ∨ 1 < (s.details.filter
                (fun od => od.offerId == oid && od.offer_type == d.offer_type)).length))) := by
  constructor
  · intro i hi
    constructor
    · constructor
      · rintro ⟨od, hok⟩
        simp only [identifyDetail, hi] at hok
        cases hf : s.details.find? (fun od => od.id == i && od.offerId == oid) with
        | none => rw [hf] at hok; exact absurd hok (by simp)
        | some od' =>
          have hmem := List.mem_of_find?_eq_some hf
          have hp := List.find?_some hf
          simp only [Bool.and_eq_true, beq_iff_eq] at hp
          exact ⟨od', hmem, hp.1, hp.2⟩
      · rintro ⟨od, hmem, hid, hoff⟩
        simp only [identifyDetail, hi]
        cases hf : s.details.find? (fun od => od.id == i && od.offerId == oid) with
        | none =>
          have := List.find?_eq_none.mp hf od hmem
          simp [hid, hoff] at this
        | some od' => exact ⟨od', rfl⟩
    · intro e he
      simp only [identifyDetail, hi] at he
      cases hf : s.details.find? (fun od => od.id == i && od.offerId == oid) with
      | none => rw [hf] at he; simpa using he.symm
      | some od' => rw [hf] at he; exact absurd he (by simp)
  · intro hi
    simp only [identifyDetail, hi]
    cases hf : s.details.filter
        (fun od => od.offerId == oid && od.offer_type == d.offer_type) with
    | nil => simp
    | cons a t =>
      cases t with
      | nil => simp
      | cons b r => simp

/-- C3 counterexample: a payload with two details submitted by a
customer-role caller is rejected by the permission layer with 403, not
with a validation error, so creation does not fail "with a validation
error regardless of the caller's role". -/
theorem handleOfferCreate_customer_forbidden_not_validation :
    exShortPayload.details.length < 3
    ∧ handleOfferCreate exOfferState 7 Role.customer 2 [20, 21] exShortPayload
        = CreateResp.forbidden
    ∧ isValidationResp
        (handleOfferCreate exOfferState 7 Role.customer 2 [20, 21] exShortPayload)
        = false := by
  refine ⟨by decide, rfl, rfl⟩

/-- C3 (amended): a creation payload with fewer than 3 details never
creates an offer, for any caller role; the permission layer rejects
non-business callers first (403), and once a business caller reaches
validation, `validate_details` rejects the payload with the validation
error. -/
theorem handleOfferCreate_short_details_never_creates
    (s : State) (cid : Nat) (r : Role) (noid : Nat) (nids : List Nat)
    (p : OfferCreatePayload) (h : p.details.length < 3) :
    (∀ s', handleOfferCreate s cid r noid nids p ≠ CreateResp.created s')
    ∧ (r = Role.business →
        handleOfferCreate s cid r noid nids p
          = CreateResp.validationError "An offer must contain at least 3 details") := by
  have hv : validate_details p.details = false := by
    simp [validate_details, h]
  constructor
  · intro s'
    unfold handleOfferCreate
    cases r <;> simp [isBusinessUserPerm, hv]
  · intro hr
    subst hr
    unfold handleOfferCreate
    simp [isBusinessUserPerm, hv]

/-- C3 witness: the amended theorem applied to the two-detail payload for
a business caller yields the validation error. -/
theorem handleOfferCreate_short_details_never_creates_witness :
    exShortPayload.details.length < 3
    ∧ handleOfferCreate exOfferState 7 Role.business 2 [20, 21] exShortPayload
        = CreateResp.validationError "An offer must contain at least 3 details" :=
  ⟨by decide,
    (handleOfferCreate_short_details_never_creates exOfferState 7 Role.business 2
      [20, 21] exShortPayload (by decide)).2 rfl⟩

/-- C2 witness: on `exOfferState`, the entry `exIdPatch` supplies id 10,
which belongs to offer 1, so identification succeeds. -/
theorem identifyDetail_id_or_tier_witness :
    ∃ od, identifyDetail exOfferState 1 exIdPatch = Except.ok od :=
  ((identifyDetail_id_or_tier exOfferState 1 exIdPatch).1 10 rfl).1.mpr
    ⟨{ id := 10, offerId := 1, title := "basic tier", revisions := 1, price := 5
       delivery_time := 3, features := [], offer_type := "basic" },
      List.mem_singleton_self _, rfl, rfl⟩

/-- C4: order creation snapshots the referenced detail: when detail `d`
(with parent offer `o`) exists, each of two successive creations returns
exactly the order `snapshotOfDetail` prescribes — fields copied from `d`,
business set to `o`'s owner — prepended to the store, and any subsequent
offer update (which is how offers and details are mutated) leaves the
orders table untouched. -/
theorem orderCreate_snapshots_detail (s : State) (did cid1 cid2 nid1 nid2 : Nat)
    (d : OfferDetail) (o : Offer)
    (hd : s.details.find? (fun od => od.id == did) = some d)
    (ho : s.offers.find? (fun x => x.id == d.offerId) = some o) :
    orderCreate s cid1 nid1 did
      = Except.ok (snapshotOfDetail nid1 cid1 o.userId d,
          { s with orders := snapshotOfDetail nid1 cid1 o.userId d :: s.orders })
    ∧ orderCreate { s with orders := snapshotOfDetail nid1 cid1 o.userId d :: s.orders }
        cid2 nid2 did
      = Except.ok (snapshotOfDetail nid2 cid2 o.userId d,
          { s with orders := snapshotOfDetail nid2 cid2 o.userId d
              :: snapshotOfDetail nid1 cid1 o.userId d :: s.orders })
    ∧ (∀ (o' : Offer) (p : OfferUpdatePayload),
        (offerUpdate { s with orders := snapshotOfDetail nid2 cid2 o.userId d
            :: snapshotOfDetail nid1 cid1 o.userId d :: s.orders } o' p).1.orders
          = snapshotOfDetail nid2 cid2 o.userId d
              :: snapshotOfDetail nid1 cid1 o.userId d :: s.orders) := by
  have hany : s.details.any (fun od => od.id == did) = true := by
    have hmem := List.mem_of_find?_eq_some hd
    have hp := @List.find?_some OfferDetail (fun od => od.id == did) d s.details hd
    exact List.any_eq_true.mpr ⟨d, hmem, hp⟩
  refine ⟨?_, ?_, ?_⟩
  · simp only [orderCreate, hany, hd, ho]
    rfl
  · simp only [orderCreate, hany, hd, ho]
    rfl
  · intro o' p
    exact offerUpdate_orders _ o' p

/-- C4 witness: creating two orders (ids 100 and 101, customers 20 and
21) from detail 10 of `exOfferState` yields the two snapshots, and a
subsequent renaming update of offer 1 leaves both orders as they were. -/
theorem orderCreate_snapshots_detail_witness :
    orderCreate exOfferState 20 100 10
      = Except.ok (snapshotOfDetail 100 20 1
          { id := 10, offerId := 1, title := "basic tier", revisions := 1, price := 5
            delivery_time := 3, features := [], offer_type := "basic" },
          { exOfferState with orders := [snapshotOfDetail 100 20 1
              { id := 10, offerId := 1, title := "basic tier", revisions := 1, price := 5
                delivery_time := 3, features := [], offer_type := "basic" }] })
    ∧ (offerUpdate { exOfferState with
          orders := [snapshotOfDetail 101 21 1
              { id := 10, offerId := 1, title := "basic tier", revisions := 1, price := 5
                delivery_time := 3, features := [], offer_type := "basic" },
            snapshotOfDetail 100 20 1
              { id := 10, offerId := 1, title := "basic tier", revisions := 1, price := 5
                delivery_time := 3, features := [], offer_type := "basic" }] }
          { id := 1, userId := 1, title := "old", description := "", image := none }
          { title := some "renamed", description := none, image := none
            details := none }).1.orders
      = [snapshotOfDetail 101 21 1
            { id := 10, offerId := 1, title := "basic tier", revisions := 1, price := 5
              delivery_time := 3, features := [], offer_type := "basic" },
          snapshotOfDetail 100 20 1
            { id := 10, offerId := 1, title := "basic tier", revisions := 1, price := 5
              delivery_time := 3, features := [], offer_type := "basic" }] := by
  have h := orderCreate_snapshots_detail exOfferState 10 20 21 100 101
    { id := 10, offerId := 1, title := "basic tier", revisions := 1, price := 5
      delivery_time := 3, features := [], offer_type := "basic" }
    { id := 1, userId := 1, title := "old", description := "", image := none }
    rfl rfl
  exact ⟨h.1, h.2.2 _ _⟩

/-- C5: the status serializer rejects a payload exactly when it carries a
key besides `status` or its `status` value (absent included) is not one
of the four enumerated statuses; and the PATCH handler, called by the
order's linked business user with a payload of exactly one valid status,
accepts and rewrites the order's status. -/
theorem orderStatusUpdate_exact_payload (payload : List (String × String))
    (s : State) (callerId orderId : Nat) (order : Order) :
    ((∃ e, runStatusSerializer payload = Except.error e)
        ↔ (payload.any (fun kv => kv.1 != "status") = true
           ∨ ¬ ∃ kv, payload.find? (fun kv => kv.1 == "status") = some kv
                ∧ orderStatusValid kv.2 = true))
    ∧ (∀ v, orderStatusValid v = true →
        s.orders.find? (fun o => o.id == orderId) = some order →
        hasBusinessProfile s callerId = true →
        callerId = order.businessUserId →
        orderStatusPatch s callerId orderId [("status", v)]
          = PatchResp.ok (saveOrderStatus s orderId v) { order with status := v }) := by
  constructor
  · cases hf : payload.find? (fun kv => kv.1 == "status") with
    | none => simp [runStatusSerializer, hf]
    | some kv =>
      by_cases hv : orderStatusValid kv.2 = true
      · by_cases hx : payload.any (fun kv => kv.1 != "status") = true
        · simp [runStatusSerializer, hf, hv, hx]
        · simp only [Bool.not_eq_true] at hx
          simp [runStatusSerializer, hf, hv, hx]
      · simp only [Bool.not_eq_true] at hv
        simp [runStatusSerializer, hf, hv]
  · intro v hv hfind hprof heq
    subst heq
    have hrun : runStatusSerializer [("status", v)] = Except.ok v := by
      simp [runStatusSerializer, hv]
    simp [orderStatusPatch, hfind, hprof, hrun]

/-- C5 witness: on `exOrderState`, business user 2 patching their order 1
with exactly `{"status": "completed"}` succeeds with the status rewritten. -/
theorem orderStatusUpdate_exact_payload_witness :
    orderStatusPatch exOrderState 2 1 [("status", "completed")]
      = PatchResp.ok (saveOrderStatus exOrderState 1 "completed")
          { id := 1, customerUserId := 4, businessUserId := 2, title := "t"
            revisions := 1, delivery_time_in_days := 3, price := 50
            features := [], offer_type := "basic", status := "completed" } :=
  (orderStatusUpdate_exact_payload [("status", "completed")] exOrderState 2 1
      { id := 1, customerUserId := 4, businessUserId := 2, title := "t"
        revisions := 1, delivery_time_in_days := 3, price := 50
        features := [], offer_type := "basic", status := "in_progress" }).2
    "completed" rfl rfl rfl rfl

/-- C6: review creation fails when the target lacks a business-type
profile, when the rating falls outside the model's 1–5 validator bounds,
when the caller targets themselves, or when this caller already reviewed
this target; otherwise it inserts exactly one review with the caller as
reviewer, and a store whose `(business_user, reviewer)` pairs are
pairwise distinct stays so — the failed duplicate check guarantees the
new pair is fresh. -/
theorem reviewCreate_rules (s : State) (rid nid bid rating : Nat) (descr : String) :
    (hasBusinessProfile s bid = false →
      reviewCreate s rid nid bid rating descr = Except.error ReviewError.targetNotBusiness)
    ∧ (hasBusinessProfile s bid = true → ratingValid rating = false →
      reviewCreate s rid nid bid rating descr = Except.error ReviewError.invalidRating)
    ∧ (hasBusinessProfile s bid = true → ratingValid rating = true → bid = rid →
      reviewCreate s rid nid bid rating descr = Except.error ReviewError.selfReview)
    ∧ (hasBusinessProfile s bid = true → ratingValid rating = true → bid ≠ rid →
      (∃ r ∈ s.reviews, r.businessUserId = bid ∧ r.reviewerId = rid) →
      reviewCreate s rid nid bid rating descr = Except.error ReviewError.alreadyReviewed)
    ∧ (hasBusinessProfile s bid = true → ratingValid rating = true → bid ≠ rid →
      (¬ ∃ r ∈ s.reviews, r.businessUserId = bid ∧ r.reviewerId = rid) →
      reviewCreate s rid nid bid rating descr
        = Except.ok
            ({ id := nid, businessUserId := bid, reviewerId := rid
               rating := rating, description := descr },
             { s with reviews :=
                { id := nid, businessUserId := bid, reviewerId := rid
                  rating := rating, description := descr } :: s.reviews }))
    ∧ (reviewPairUnique s.reviews →
        ∀ r s', reviewCreate s rid nid bid rating descr = Except.ok (r, s') →
          reviewPairUnique s'.reviews) := by
  have hany : (s.reviews.any (fun r => r.businessUserId == bid && r.reviewerId == rid) = true)
      ↔ ∃ r ∈ s.reviews, r.businessUserId = bid ∧ r.reviewerId = rid := by
    simp [List.any_eq_true]
  refine ⟨?_, ?_, ?_, ?_, ?_, ?_⟩
  · intro h; simp [reviewCreate, h]
  · intro h hv; simp [reviewCreate, h, hv]
  · intro h hv hb
    subst hb
    simp [reviewCreate, h, hv]
  · intro h hv hb hdup
    simp [reviewCreate, h, hv, hb, hany.mpr hdup]
  · intro h hv hb hdup
    have hfalse : s.reviews.any
        (fun r => r.businessUserId == bid && r.reviewerId == rid) = false := by
      by_cases hda : s.reviews.any
          (fun r => r.businessUserId == bid && r.reviewerId == rid) = true
      · exact absurd (hany.mp hda) hdup
      · simpa using hda
    simp [reviewCreate, h, hv, hb, hfalse]
  · intro huniq r s' hok
    by_cases h : hasBusinessProfile s bid = true
    · by_cases hv : ratingValid rating = true
      · by_cases hb : bid = rid
        · subst hb
          simp [reviewCreate, h, hv] at hok
        · by_cases hd : s.reviews.any
              (fun x => x.businessUserId == bid && x.reviewerId == rid) = true
          · simp [reviewCreate, h, hv, hb, hd] at hok
          · have hd' : s.reviews.any
                (fun x => x.businessUserId == bid && x.reviewerId == rid) = false := by
              simpa using hd
            have hfresh : ∀ x ∈ s.reviews,
                ¬ (x.businessUserId = bid ∧ x.reviewerId = rid) := by
              intro x hx hcontra
              have hx1 : (fun y : Review =>
                  y.businessUserId == bid && y.reviewerId == rid) x = true := by
                simp only [Bool.and_eq_true, beq_iff_eq]
                exact hcontra
              have hx2 : s.reviews.any
                  (fun y : Review => y.businessUserId == bid && y.reviewerId == rid) = true :=
                List.any_eq_true.mpr ⟨x, hx, hx1⟩
              rw [hd'] at hx2
              exact Bool.false_ne_true hx2
            have h4 : reviewCreate s rid nid bid rating descr
                = Except.ok
                    ({ id := nid, businessUserId := bid, reviewerId := rid
                       rating := rating, description := descr },
                     { s with reviews :=
                        { id := nid, businessUserId := bid, reviewerId := rid
                          rating := rating, description := descr } :: s.reviews }) := by
              simp [reviewCreate, h, hv, hb, hd']
            have hpq := h4.symm.trans hok
            injection hpq with hpq2
            have hs2 := congrArg Prod.snd hpq2
            dsimp only at hs2
            rw [← hs2]
            simp only [reviewPairUnique]
            refine List.Pairwise.cons ?_ huniq
            intro b hbmem hcon
            exact hfresh b hbmem ⟨hcon.1.symm, hcon.2.symm⟩
      · have hv' : ratingValid rating = false := by simpa using hv
        simp [reviewCreate, h, hv'] at hok
    · simp only [Bool.not_eq_true] at h
      simp [reviewCreate, h] at hok

/-- C6 witness: on `exReviewState`, customer 5 reviewing business user 9
with the in-bounds rating 4 succeeds and inserts exactly one review with
reviewer 5. -/
theorem reviewCreate_rules_witness :
    reviewCreate exReviewState 5 1 9 4 "good"
      = Except.ok
          ({ id := 1, businessUserId := 9, reviewerId := 5
             rating := 4, description := "good" },
           { exReviewState with reviews :=
              [{ id := 1, businessUserId := 9, reviewerId := 5
                 rating := 4, description := "good" }] }) :=
  (reviewCreate_rules exReviewState 5 1 9 4 "good").2.2.2.2.1 rfl (by decide) (by decide)
    (by rintro ⟨r, hr, -⟩; simp [exReviewState] at hr)

/-- C7: every offer read back from the annotated queryset carries
`min_price` and `min_delivery_time` equal to the minimum of `price` /
`delivery_time` over its current detail rows: `none` exactly when the
offer has no detail, and `some m` exactly when `m` is a value of a row
and no row's value is smaller.  The aggregates are recomputed from the
store on every call: they are no stored column of `Offer`. -/
theorem offerQueryset_min_annotations (s : State) (a : AnnotatedOffer)
    (ha : a ∈ offerQueryset s) :
    (a.min_price = none
        ↔ s.details.filter (fun d => d.offerId == a.offer.id) = [])
    ∧ (∀ m, a.min_price = some m
        ↔ (m ∈ (s.details.filter (fun d => d.offerId == a.offer.id)).map OfferDetail.price
           ∧ ∀ x ∈ (s.details.filter
                (fun d => d.offerId == a.offer.id)).map OfferDetail.price, m ≤ x))
    ∧ (a.min_delivery_time = none
        ↔ s.details.filter (fun d => d.offerId == a.offer.id) = [])
    ∧ (∀ m, a.min_delivery_time = some m
        ↔ (m ∈ (s.details.filter
                (fun d => d.offerId == a.offer.id)).map OfferDetail.delivery_time
           ∧ ∀ x ∈ (s.details.filter
                (fun d => d.offerId == a.offer.id)).map OfferDetail.delivery_time, m ≤ x)) := by
  rcases List.mem_map.mp ha with ⟨o, ho, rfl⟩
  refine ⟨?_, ?_, ?_, ?_⟩
  · simpa [annotateMinPrice] using
      aggMin_eq_none_iff OfferDetail.price (s.details.filter (fun d => d.offerId == o.id))
  · intro m
    simpa [annotateMinPrice] using
      aggMin_eq_some_iff OfferDetail.price (s.details.filter (fun d => d.offerId == o.id)) m
  · simpa [annotateMinDeliveryTime] using
      aggMin_eq_none_iff OfferDetail.delivery_time
        (s.details.filter (fun d => d.offerId == o.id))
  · intro m
    simpa [annotateMinDeliveryTime] using
      aggMin_eq_some_iff OfferDetail.delivery_time
        (s.details.filter (fun d => d.offerId == o.id)) m

/-- C7 witness: on `exOfferState`, the annotated row of offer 1 reads
back `min_price = 5` and `min_delivery_time = 3`, the minima over its
single detail row. -/
theorem offerQueryset_min_annotations_witness :
    ({ offer := { id := 1, userId := 1, title := "old", description := "", image := none }
       min_price := some 5, min_delivery_time := some 3 } : AnnotatedOffer).min_price
      = some 5
    ∧ ({ offer := { id := 1, userId := 1, title := "old", description := "", image := none }
         min_price := some 5, min_delivery_time := some 3 } : AnnotatedOffer).min_delivery_time
      = some 3 := by
  have h := offerQueryset_min_annotations exOfferState
    { offer := { id := 1, userId := 1, title := "old", description := "", image := none }
      min_price := some 5, min_delivery_time := some 3 }
    (by simp [offerQueryset, exOfferState, annotateMinPrice, annotateMinDeliveryTime, aggMin])
  exact ⟨(h.2.1 5).mpr (by decide), (h.2.2.2 3).mpr (by decide)⟩
